import Mathlib

/-!
Verification of the conversational tool-orchestration loop of this repository.

The embedding models the two demo applications and the personal-assistant
tool handlers:

- demo_1_pdf_search.py: class PDFSearchAssistant, with vector_store_id and
  conversation_history as its state, and the methods upload_pdf, search and
  search_streaming.  Remote calls (the OpenAI client) are passed in as
  oracle functions, so theorems quantify over every possible remote
  behaviour.
- demo_2_investment_advisor.py: class InvestmentAdvisor, with
  conversation_id as its state, and the private methods for streamed and
  synchronous responses.
- claude-code-examples/personal_assistant/main.py: the function tools
  calculate and get_current_time; the Python eval call and the pytz
  timezone lookup are passed in as oracles returning Except and Option.

Stream events are modelled as a tagged sum mirroring the event.type strings
the loops inspect: response.output_text.delta, response.completed,
response.output_item.added, and a catch-all for every other type string,
which the loops fall through without any handling.
-/

namespace Spec2Proof

/-- One event of a streamed response, as inspected through its type string
by the for-loops of both demos.  The constructor other stands for any
event whose type string is none of the recognized ones. -/
inductive StreamEvent where
  | textDelta (delta : String)
  | outputItemAdded (itemType : String)
  | completed (responseId : String)
  | other (eventType : String)
deriving DecidableEq, Repr

/-- The mutable loop state of search_streaming in demo 1: the list
full_text of collected deltas (line 174) and current_response_id
(line 175). -/
structure AggState where
  full_text : List String
  current_response_id : Option String
deriving DecidableEq, Repr

/-- One iteration of the event loop of search_streaming (lines 177 to 182):
a text delta is appended to full_text, a completed event stores the
response id, and every other event, the output-item notice included, leaves
the state unchanged because the loop has no branch for it. -/
def streamStep (s : AggState) (e : StreamEvent) : AggState :=
  match e with
  | .textDelta d => { s with full_text := s.full_text ++ [d] }
  | .completed rid => { s with current_response_id := some rid }
  | .outputItemAdded _ => s
  | .other _ => s

/-- The whole event loop of search_streaming: a left fold of streamStep
over the events in arrival order, starting from the empty buffer and no
response id. -/
def processStream (events : List StreamEvent) : AggState :=
  events.foldl streamStep { full_text := [], current_response_id := none }

/-- The aggregation outcome of one streamed request, in the vocabulary of
the specification: finalText joins the collected deltas (the join call at
line 187 of demo 1), turnId is the recorded response id, and failed marks
a stream that ended without a response.completed event, which is the only
failure the demos can observe (no response id was recorded, so nothing to
chain the next turn to). -/
structure AggregationResult where
  finalText : String
  turnId : Option String
  failed : Bool
deriving DecidableEq, Repr

/-- Fold a full event sequence into an AggregationResult. -/
def aggregate (events : List StreamEvent) : AggregationResult :=
  let st := processStream events
  { finalText := String.join st.full_text
    turnId := st.current_response_id
    failed := st.current_response_id.isNone }

/-- Python truthiness of the optional vector_store_id: the guard
if not self.vector_store_id is taken when the field is None and also when
it is an empty string. -/
def pyFalsy : Option String → Bool
  | none => true
  | some s => s.isEmpty

/-- One entry of conversation_history (lines 127 to 131 and 188 to 192 of
demo 1): the query, the response text, and the response id, which the
streaming path leaves as None when the stream ends without a
response.completed event. -/
structure Entry where
  query : String
  response : String
  response_id : Option String
deriving DecidableEq, Repr

/-- The state of a PDFSearchAssistant: vector_store_id (None until
create_vector_store is called) and the append-only conversation_history. -/
structure PDFSearchState where
  vector_store_id : Option String
  conversation_history : List Entry
deriving DecidableEq, Repr

/-- Lines 102 to 105 of demo 1: previous_response_id starts as None and is
set to the response_id of the last history entry when the history is
nonempty. -/
def previousResponseId (history : List Entry) : Option String :=
  match history.getLast? with
  | none => none
  | some e => e.response_id

/-- The message of the ValueError raised by upload_pdf, search and
search_streaming when no vector store exists. -/
def vectorStoreError : String := "Vector store not created. Call create_vector_store() first."

/-- The status dictionary returned by upload_pdf. -/
structure UploadStatus where
  file : String
  status : String
  detail : String
deriving DecidableEq, Repr

/-- os.path.basename restricted to forward slashes, as used on line 57. -/
def basename (p : String) : String := ((p.splitOn "/").getLast?).getD p

/-- upload_pdf (lines 45 to 82 of demo 1).  The remote oracle stands for
the file upload plus vector-store attachment and returns the new file id
or the text of the exception the try block catches.  The method raises
ValueError before consulting the oracle when the vector store is missing,
and never touches conversation_history. -/
def upload_pdf (remote : String → Except String String) (s : PDFSearchState)
    (file_path : String) : Except String UploadStatus × PDFSearchState :=
  if pyFalsy s.vector_store_id then (.error vectorStoreError, s)
  else
    match remote file_path with
    | .ok file_id => (.ok { file := basename file_path, status := "success", detail := file_id }, s)
    | .error e => (.ok { file := basename file_path, status := "failed", detail := e }, s)

/-- search (lines 84 to 133 of demo 1).  The remote oracle stands for
client.responses.create and maps the query and previous_response_id to the
pair of response text and response id.  On success the method appends an
entry carrying the response id to conversation_history and returns the
response text. -/
def search (remote : String → Option String → String × String) (s : PDFSearchState)
    (query : String) : Except String String × PDFSearchState :=
  if pyFalsy s.vector_store_id then (.error vectorStoreError, s)
  else
    let response := remote query (previousResponseId s.conversation_history)
    (.ok response.1,
      { s with conversation_history :=
          s.conversation_history ++ [{ query := query, response := response.1, response_id := some response.2 }] })

/-- search_streaming (lines 135 to 192 of demo 1).  The remote oracle
returns the event stream; the method folds it with streamStep and appends
an entry whose response text joins the collected deltas and whose
response_id is whatever current_response_id ended as, None included. -/
def search_streaming (remote : String → Option String → List StreamEvent)
    (s : PDFSearchState) (query : String) : Except String Unit × PDFSearchState :=
  if pyFalsy s.vector_store_id then (.error vectorStoreError, s)
  else
    let agg := processStream (remote query (previousResponseId s.conversation_history))
    (.ok (),
      { s with conversation_history :=
          s.conversation_history
            ++ [{ query := query, response := String.join agg.full_text,
                  response_id := agg.current_response_id }] })

/-- A sequence of search turns against one assistant: each turn feeds the
state left by the previous one. -/
def runTurns (remote : String → Option String → String × String)
    (s : PDFSearchState) (queries : List String) : PDFSearchState :=
  queries.foldl (fun st q => (search remote st q).2) s

/-- The per-turn remote results of a sequence of search turns: for each
turn, the pair of response text and response id the remote produced, which
is the AggregationResult content of that turn. -/
def turnResults (remote : String → Option String → String × String) :
    PDFSearchState → List String → List (String × String)
  | _, [] => []
  | s, q :: rest =>
    remote q (previousResponseId s.conversation_history)
      :: turnResults remote (search remote s q).2 rest

/-- The state of an InvestmentAdvisor (demo 2): conversation_id, None
until a turn completes. -/
structure AdvisorState where
  conversation_id : Option String
deriving DecidableEq, Repr

/-- The loop state of the streaming method of demo 2 (lines 90 to 99):
the local full_text buffer plus the conversation_id attribute, which the
loop overwrites in place on a response.completed event. -/
structure Demo2Loop where
  full_text : List String
  conversation_id : Option String
deriving DecidableEq, Repr

/-- One iteration of the event loop of demo 2: deltas are appended,
a completed event stores its response id in conversation_id, the
output-item branch only prints a notice, and every other event falls
through. -/
def advisorStep (st : Demo2Loop) (e : StreamEvent) : Demo2Loop :=
  match e with
  | .textDelta d => { st with full_text := st.full_text ++ [d] }
  | .completed rid => { st with conversation_id := some rid }
  | .outputItemAdded _ => st
  | .other _ => st

/-- The non-streaming response object of demo 2: the fields read on
lines 114 and 115, that is the response id and the final output text. -/
structure ResponseObject where
  text : String
  id : String
deriving DecidableEq, Repr

/-- The streaming method of demo 2 (lines 74 to 102), taking the obtained
event stream: fold the events, return the joined text, and leave
conversation_id as the loop left it. -/
def stream_response (events : List StreamEvent) (s : AdvisorState) : String × AdvisorState :=
  let final := events.foldl advisorStep { full_text := [], conversation_id := s.conversation_id }
  (String.join final.full_text, { conversation_id := final.conversation_id })

/-- The synchronous method of demo 2 (lines 104 to 115), taking the
obtained response object: set conversation_id to the response id and
return the response text. -/
def sync_response (response : ResponseObject) (_s : AdvisorState) : String × AdvisorState :=
  (response.text, { conversation_id := some response.id })

/-- The event loop of demo 1 with its observer made explicit: the print
calls issued inside the loop are modelled as a caller-supplied observer
state transformer invoked once per event, threaded alongside the
aggregation state. -/
def processStreamObs {σ : Type} (observer : StreamEvent → σ → σ)
    (events : List StreamEvent) (o0 : σ) : AggState × σ :=
  events.foldl (fun p e => (streamStep p.1 e, observer e p.2))
    ({ full_text := [], current_response_id := none }, o0)

/-- The calculate tool of the personal assistant (main.py lines 33 to 49).
The oracle stands for the restricted Python eval call and returns either
the printed form of the computed value or the text of the exception the
except branch catches; the handler itself always returns a string. -/
def calculate (evalExpr : String → Except String String) (expression : String) : String :=
  match evalExpr expression with
  | .ok result => expression ++ " = " ++ result
  | .error e => "Error calculating expression: " ++ e

/-- The get_current_time tool of the personal assistant (main.py lines 19
to 31).  The oracle stands for the pytz lookup plus formatting of the
current time and returns None exactly when pytz raises
UnknownTimeZoneError; the handler itself always returns a string. -/
def get_current_time (timezoneLookup : String → Option String) (timezone : String) : String :=
  match timezoneLookup timezone with
  | some timeStr => "Current time in " ++ timezone ++ ": " ++ timeStr
  | none => "Unknown timezone: " ++ timezone ++ ". Please use a valid timezone name."

/-- Modelled from the spec: one reply of the remote service inside the
tool loop of OrchestrationLoop.run (spec section 4.4), which is not
implemented under src; the service either delivers the final answer with
its turn id or asks the orchestrator to run a LOCAL tool. -/
inductive ServiceReply where
  | finalAnswer (text : String) (turnId : String)
  | requestLocalTool (toolName : String) (args : String) (callId : String)
deriving DecidableEq, Repr

/-- Modelled from the spec: the failure of OrchestrationLoop.run when the
tool loop exceeds its fixed maximum depth. -/
inductive RunError where
  | toolLoopExceeded
deriving DecidableEq, Repr

/-- Modelled from the spec: the fixed maximum depth of the tool loop, the
design constant of spec section 4.4 step 3. -/
def maxToolDepth : Nat := 5

/-- Modelled from the spec: the tool loop of OrchestrationLoop.run.  The
service is a function of the tool results fed back so far; each round
that requests a LOCAL tool invokes the handler and recurs on a
continuation carrying the new result, with the remaining depth as fuel.
The returned number counts the local-tool continuation rounds performed.
When the service still requests a tool with no depth left, the run fails
with ToolLoopExceededError. -/
def runLoop (service : List String → ServiceReply) (handler : String → String → String)
    (results : List String) : Nat → Except RunError (String × String) × Nat
  | 0 =>
    match service results with
    | .finalAnswer text turnId => (.ok (text, turnId), 0)
    | .requestLocalTool _ _ _ => (.error .toolLoopExceeded, 0)
  | fuel + 1 =>
    match service results with
    | .finalAnswer text turnId => (.ok (text, turnId), 0)
    | .requestLocalTool toolName args _callId =>
      let r := runLoop service handler (results ++ [handler toolName args]) fuel
      (r.1, r.2 + 1)

/-- Modelled from the spec: OrchestrationLoop.run, starting the tool loop
with no tool results yet and the full depth budget. -/
def OrchestrationLoop.run (service : List String → ServiceReply)
    (handler : String → String → String) : Except RunError (String × String) × Nat :=
  runLoop service handler [] maxToolDepth

theorem string_empty_append (s : String) : "" ++ s = s := by
  cases s with
  | mk data => rfl

theorem join_singleton (s : String) : String.join [s] = s :=
  string_empty_append s

theorem foldl_streamStep_textDeltas (ds : List String) (init : AggState) :
    List.foldl streamStep init (ds.map StreamEvent.textDelta)
      = { init with full_text := init.full_text ++ ds } := by
  induction ds generalizing init with
  | nil => simp
  | cons d rest ih =>
    simp [List.foldl_cons, streamStep, ih]

theorem foldl_obs_fst {σ : Type} (observer : StreamEvent → σ → σ) (events : List StreamEvent) :
    ∀ (init : AggState) (o : σ),
      (events.foldl (fun p e => (streamStep p.1 e, observer e p.2)) (init, o)).1
        = events.foldl streamStep init := by
  induction events with
  | nil => intro init o; rfl
  | cons e rest ih => intro init o; simpa using ih (streamStep init e) (observer e o)

/-- Claim C3 counterexample: the loop of search_streaming has no early
exit, so in the stream completed t1, delta x, completed t2 the delta
arriving after the first completed event is still appended (full_text ends
as the singleton x even though no delta preceded completion) and the later
completed event overwrites the recorded response id with t2. -/
theorem events_after_completed_still_processed :
    (processStream [StreamEvent.completed "t1", StreamEvent.textDelta "x",
        StreamEvent.completed "t2"]).full_text = ["x"]
    ∧ (processStream [StreamEvent.completed "t1", StreamEvent.textDelta "x",
        StreamEvent.completed "t2"]).current_response_id = some "t2"
    ∧ (["x"] : List String) ≠ [] ∧ (some "t2" : Option String) ≠ some "t1" := by
  decide

/-- Claim C3 as amended: aggregation does not stop at the first
response.completed event; the loop processes the stream to its end, so a
text delta arriving after any prefix of events, completed events included,
is appended to the buffer, and a later completed event overwrites the
recorded response id. -/
theorem stream_processed_to_end (evs : List StreamEvent) (d rid : String) :
    (processStream (evs ++ [StreamEvent.textDelta d])).full_text
        = (processStream evs).full_text ++ [d]
    ∧ (processStream (evs ++ [StreamEvent.completed rid])).current_response_id = some rid := by
  constructor <;> simp [processStream, List.foldl_append, streamStep]

/-- Claim C4: folding delta a, delta b, completed t1 yields final text ab,
turn id t1 and a non-failed result; in general, for any sequence of text
deltas followed by a completion event, the final text is the in-order
concatenation of the delta payloads. -/
theorem textDeltas_concatenate_in_order :
    aggregate [StreamEvent.textDelta "a", StreamEvent.textDelta "b", StreamEvent.completed "t1"]
      = { finalText := "ab", turnId := some "t1", failed := false }
    ∧ ∀ (ds : List String) (i : String),
        aggregate (ds.map StreamEvent.textDelta ++ [StreamEvent.completed i])
          = { finalText := String.join ds, turnId := some i, failed := false } := by
  constructor
  · decide
  · intro ds i
    simp [aggregate, processStream, List.foldl_append, foldl_streamStep_textDeltas, streamStep]

/-- Claim C5: the non-streaming path of demo 2 agrees with the streaming
path applied to the synthetic event list made of one delta carrying the
full text followed by the completion event carrying the response id: both
return the same text and leave the same conversation_id. -/
theorem sync_equals_stream_on_synthetic_events (t i : String) (s : AdvisorState) :
    stream_response [StreamEvent.textDelta t, StreamEvent.completed i] s
      = sync_response { text := t, id := i } s := by
  simp [stream_response, sync_response, advisorStep, join_singleton]

/-- Claim C7: a tool handler whose body raises yields an error-message
string instead of a propagated exception: calculate maps a raising
evaluation to the calculating-error message, and get_current_time maps an
unknown timezone to the unknown-timezone message.  Both handlers are total
functions into String, so no exception escapes to abort the turn. -/
theorem tool_handler_errors_become_strings
    (evalExpr : String → Except String String) (timezoneLookup : String → Option String)
    (expression timezone msg : String) :
    (evalExpr expression = Except.error msg →
      calculate evalExpr expression = "Error calculating expression: " ++ msg)
    ∧ (timezoneLookup timezone = none →
      get_current_time timezoneLookup timezone
        = "Unknown timezone: " ++ timezone ++ ". Please use a valid timezone name.") := by
  constructor <;> intro h <;> simp [calculate, get_current_time, h]

theorem tool_handler_errors_become_strings_witness :
    calculate (fun _ => Except.error "division by zero") "1/0"
        = "Error calculating expression: " ++ "division by zero"
    ∧ get_current_time (fun _ => none) "Mars/Olympus"
        = "Unknown timezone: " ++ "Mars/Olympus" ++ ". Please use a valid timezone name." :=
  ⟨(tool_handler_errors_become_strings (fun _ => Except.error "division by zero")
      (fun _ => none) "1/0" "Mars/Olympus" "division by zero").1 rfl,
   (tool_handler_errors_become_strings (fun _ => Except.error "division by zero")
      (fun _ => none) "1/0" "Mars/Olympus" "division by zero").2 rfl⟩

/-- Claim C8: the aggregation outcome is identical across any two runs
that differ only in the caller-supplied observer and its starting state,
and equals the observer-free aggregation: invoking the observer never
alters the aggregation outcome. -/
theorem observer_does_not_affect_aggregation {σ₁ σ₂ : Type}
    (obs1 : StreamEvent → σ₁ → σ₁) (obs2 : StreamEvent → σ₂ → σ₂)
    (o1 : σ₁) (o2 : σ₂) (events : List StreamEvent) :
    (processStreamObs obs1 events o1).1 = (processStreamObs obs2 events o2).1
    ∧ (processStreamObs obs1 events o1).1 = processStream events := by
  have h1 := foldl_obs_fst obs1 events { full_text := [], current_response_id := none } o1
  have h2 := foldl_obs_fst obs2 events { full_text := [], current_response_id := none } o2
  constructor
  · simp only [processStreamObs]
    rw [h1, h2]
  · simp only [processStreamObs, processStream]
    exact h1

/-- Claim C9: with no vector store created, upload_pdf, search and
search_streaming all raise the ValueError with the create-first message
and leave the state, conversation_history included, unchanged; the result
does not depend on the remote oracles, which are never consulted. -/
theorem no_vector_store_raises_before_remote
    (uploadRemote : String → Except String String)
    (searchRemote : String → Option String → String × String)
    (streamRemote : String → Option String → List StreamEvent)
    (s : PDFSearchState) (file_path query1 query2 : String)
    (h : s.vector_store_id = none) :
    upload_pdf uploadRemote s file_path = (Except.error vectorStoreError, s)
    ∧ search searchRemote s query1 = (Except.error vectorStoreError, s)
    ∧ search_streaming streamRemote s query2 = (Except.error vectorStoreError, s) := by
  have hb : pyFalsy s.vector_store_id = true := by rw [h]; rfl
  refine ⟨?_, ?_, ?_⟩ <;> simp [upload_pdf, search, search_streaming, hb]

theorem no_vector_store_raises_before_remote_witness :
    upload_pdf (fun _ => Except.ok "file-1") { vector_store_id := none, conversation_history := [] }
        "a.pdf" = (Except.error vectorStoreError,
          { vector_store_id := none, conversation_history := [] })
    ∧ search (fun _ _ => ("r", "id")) { vector_store_id := none, conversation_history := [] }
        "q" = (Except.error vectorStoreError,
          { vector_store_id := none, conversation_history := [] })
    ∧ search_streaming (fun _ _ => []) { vector_store_id := none, conversation_history := [] }
        "q" = (Except.error vectorStoreError,
          { vector_store_id := none, conversation_history := [] }) :=
  no_vector_store_raises_before_remote _ _ _ _ "a.pdf" "q" "q" rfl

/-- Claim C10: an event of any unrecognized type is silently skipped in
both demos; inserting it anywhere in the stream of demo 1 leaves the
aggregation unchanged, and one step of the demo 2 loop on it is the
identity.  Both loops are total functions, so no error is raised. -/
theorem unrecognized_events_skipped (evs1 evs2 : List StreamEvent) (t : String) :
    processStream (evs1 ++ StreamEvent.other t :: evs2) = processStream (evs1 ++ evs2)
    ∧ ∀ st : Demo2Loop, advisorStep st (StreamEvent.other t) = st := by
  constructor
  · simp [processStream, List.foldl_append, List.foldl_cons, streamStep]
  · intro st; rfl

theorem foldl_streamStep_no_completed :
    ∀ (evs : List StreamEvent), (∀ rid, StreamEvent.completed rid ∉ evs) →
      ∀ init : AggState,
        (List.foldl streamStep init evs).current_response_id = init.current_response_id
  | [], _, _ => rfl
  | e :: rest, h, init => by
    have hrest : ∀ rid, StreamEvent.completed rid ∉ rest :=
      fun rid hm => h rid (List.mem_cons_of_mem _ hm)
    rw [List.foldl_cons, foldl_streamStep_no_completed rest hrest]
    cases e with
    | textDelta d => rfl
    | outputItemAdded t => rfl
    | other t => rfl
    | completed rid => exact absurd (List.mem_cons_self _ _) (h rid)

theorem previousResponseId_concat (h : List Entry) (e : Entry) :
    previousResponseId (h ++ [e]) = e.response_id := by
  unfold previousResponseId
  rw [List.getLast?_concat]

theorem search_vector_store_id (remote : String → Option String → String × String)
    (s : PDFSearchState) (q : String) :
    ((search remote s q).2).vector_store_id = s.vector_store_id := by
  unfold search
  split
  · rfl
  · rfl

theorem search_history_of_ok (remote : String → Option String → String × String)
    (s : PDFSearchState) (q : String) (h : pyFalsy s.vector_store_id = false) :
    ((search remote s q).2).conversation_history
      = s.conversation_history
        ++ [{ query := q, response := (remote q (previousResponseId s.conversation_history)).1,
              response_id := some (remote q (previousResponseId s.conversation_history)).2 }] := by
  simp [search, h]

theorem runTurns_cons (remote : String → Option String → String × String)
    (s : PDFSearchState) (q : String) (rest : List String) :
    runTurns remote s (q :: rest) = runTurns remote (search remote s q).2 rest := rfl

theorem runTurns_history_length (remote : String → Option String → String × String) :
    ∀ (qs : List String) (s : PDFSearchState), pyFalsy s.vector_store_id = false →
      (runTurns remote s qs).conversation_history.length
        = s.conversation_history.length + qs.length
  | [], s, _ => by simp [runTurns]
  | q :: rest, s, h => by
    have h2 : pyFalsy ((search remote s q).2).vector_store_id = false := by
      rw [search_vector_store_id]; exact h
    have ih := runTurns_history_length remote rest (search remote s q).2 h2
    rw [runTurns_cons, ih, search_history_of_ok remote s q h]
    simp only [List.length_append, List.length_cons, List.length_nil]
    omega

theorem runTurns_lastRef (remote : String → Option String → String × String) :
    ∀ (qs : List String) (s : PDFSearchState), qs ≠ [] → pyFalsy s.vector_store_id = false →
      previousResponseId (runTurns remote s qs).conversation_history
        = ((turnResults remote s qs).getLast?).map Prod.snd
  | [], _, hne, _ => absurd rfl hne
  | [q], s, _, h => by
    rw [runTurns_cons]
    show previousResponseId ((search remote s q).2).conversation_history = _
    rw [search_history_of_ok remote s q h, previousResponseId_concat]
    rfl
  | q :: q2 :: rest, s, _, h => by
    have h2 : pyFalsy ((search remote s q).2).vector_store_id = false := by
      rw [search_vector_store_id]; exact h
    have ih := runTurns_lastRef remote (q2 :: rest) (search remote s q).2 (by simp) h2
    rw [runTurns_cons, ih]
    have e1 : turnResults remote s (q :: q2 :: rest)
        = remote q (previousResponseId s.conversation_history)
            :: turnResults remote (search remote s q).2 (q2 :: rest) := rfl
    have e2 : turnResults remote (search remote s q).2 (q2 :: rest)
        = remote q2 (previousResponseId ((search remote s q).2).conversation_history)
            :: turnResults remote (search remote (search remote s q).2 q2).2 rest := rfl
    rw [e1, e2, List.getLast?_cons_cons]

/-- Claim C1: after a sequence of n successful search turns starting from
a fresh assistant with a vector store, conversation_history holds exactly
n entries and the previous_response_id to be used by the next request
equals the response id of the remote result of turn n, the turn id of the
AggregationResult of the last turn. -/
theorem successful_turns_link_last_response
    (remote : String → Option String → String × String) (s0 : PDFSearchState)
    (qs : List String) (hvs : pyFalsy s0.vector_store_id = false)
    (h0 : s0.conversation_history = []) (hqs : qs ≠ []) :
    (runTurns remote s0 qs).conversation_history.length = qs.length
    ∧ previousResponseId (runTurns remote s0 qs).conversation_history
        = ((turnResults remote s0 qs).getLast?).map Prod.snd := by
  constructor
  · rw [runTurns_history_length remote qs s0 hvs, h0]
    simp
  · exact runTurns_lastRef remote qs s0 hqs hvs

theorem successful_turns_link_last_response_witness :
    ((runTurns (fun _ _ => ("resp", "id1"))
        { vector_store_id := some "vs", conversation_history := [] }
        ["q1", "q2"]).conversation_history.length = 2)
    ∧ previousResponseId (runTurns (fun _ _ => ("resp", "id1"))
        { vector_store_id := some "vs", conversation_history := [] }
        ["q1", "q2"]).conversation_history
      = ((turnResults (fun _ _ => ("resp", "id1"))
          { vector_store_id := some "vs", conversation_history := [] }
          ["q1", "q2"]).getLast?).map Prod.snd :=
  successful_turns_link_last_response _ _ _ (by decide) rfl (by decide)

/-- Claim C2 counterexample: starting from a history whose last successful
turn had response id id0, a turn whose stream carries one delta and no
response.completed event changes the last-turn reference: it was some id0
before the turn and is none after it, because the failed attempt is
appended with response_id None and previous_response_id always reads the
last entry. -/
theorem failed_turn_changes_last_reference :
    previousResponseId ((search_streaming (fun _ _ => [StreamEvent.textDelta "x"])
        { vector_store_id := some "vs",
          conversation_history := [{ query := "q0", response := "r0", response_id := some "id0" }] }
        "q1").2.conversation_history) = none
    ∧ previousResponseId
        [{ query := "q0", response := "r0", response_id := some "id0" : Entry }] = some "id0" := by
  decide

/-- Claim C2 as amended: a turn whose stream ends without a
response.completed event still appends the attempt to
conversation_history, but with response_id None; the last-turn reference
after the turn is therefore None, so the next turn starts an unlinked
conversation instead of chaining to the last successful turn id. -/
theorem failed_turn_records_attempt_resets_reference
    (remote : String → Option String → List StreamEvent) (s : PDFSearchState) (q : String)
    (hvs : pyFalsy s.vector_store_id = false)
    (hnc : ∀ rid, StreamEvent.completed rid ∉ remote q (previousResponseId s.conversation_history)) :
    (search_streaming remote s q).2.conversation_history
      = s.conversation_history
        ++ [{ query := q,
              response := String.join (processStream
                (remote q (previousResponseId s.conversation_history))).full_text,
              response_id := none }]
    ∧ previousResponseId (search_streaming remote s q).2.conversation_history = none := by
  have hid : (processStream
      (remote q (previousResponseId s.conversation_history))).current_response_id = none :=
    foldl_streamStep_no_completed _ hnc _
  constructor
  · simp [search_streaming, hvs, hid]
  · simp [search_streaming, hvs, previousResponseId_concat, hid]

theorem failed_turn_records_attempt_resets_reference_witness :
    pyFalsy (some "vs" : Option String) = false
    ∧ ((search_streaming (fun _ _ => [StreamEvent.textDelta "x"])
          { vector_store_id := some "vs", conversation_history := [] } "q").2.conversation_history
        = [] ++ [{ query := "q",
                   response := String.join
                     (processStream [StreamEvent.textDelta "x"]).full_text,
                   response_id := none }]
      ∧ previousResponseId ((search_streaming (fun _ _ => [StreamEvent.textDelta "x"])
          { vector_store_id := some "vs", conversation_history := [] } "q").2.conversation_history)
          = none) :=
  ⟨by decide,
   failed_turn_records_attempt_resets_reference (fun _ _ => [StreamEvent.textDelta "x"])
     { vector_store_id := some "vs", conversation_history := [] } "q" (by decide)
     (by intro rid hm; simp at hm)⟩

theorem runLoop_rounds_le (service : List String → ServiceReply)
    (handler : String → String → String) :
    ∀ (fuel : Nat) (results : List String),
      (runLoop service handler results fuel).2 ≤ fuel
  | 0, results => by
    cases h : service results <;> simp [runLoop, h]
  | fuel + 1, results => by
    cases h : service results with
    | finalAnswer t tid => simp [runLoop, h]
    | requestLocalTool nm args cid =>
      have ih := runLoop_rounds_le service handler fuel (results ++ [handler nm args])
      simp [runLoop, h]
      omega

theorem runLoop_always_request_errors (service : List String → ServiceReply)
    (handler : String → String → String)
    (hreq : ∀ rs, ∃ n a c, service rs = ServiceReply.requestLocalTool n a c) :
    ∀ (fuel : Nat) (results : List String),
      (runLoop service handler results fuel).1 = Except.error RunError.toolLoopExceeded
  | 0, results => by
    obtain ⟨n, a, c, h⟩ := hreq results
    simp [runLoop, h]
  | fuel + 1, results => by
    obtain ⟨n, a, c, h⟩ := hreq results
    have ih := runLoop_always_request_errors service handler hreq fuel
      (results ++ [handler n a])
    simp [runLoop, h, ih]

/-- Claim C6: for every service behaviour and every total local handler,
OrchestrationLoop.run returns and performs at most maxToolDepth local-tool
continuation rounds; a service that keeps requesting local tool execution
beyond that bound makes the run fail with ToolLoopExceededError instead of
looping forever. -/
theorem run_tool_loop_bounded (service : List String → ServiceReply)
    (handler : String → String → String) :
    (OrchestrationLoop.run service handler).2 ≤ maxToolDepth
    ∧ ((∀ rs, ∃ n a c, service rs = ServiceReply.requestLocalTool n a c) →
        (OrchestrationLoop.run service handler).1
          = Except.error RunError.toolLoopExceeded) :=
  ⟨runLoop_rounds_le service handler maxToolDepth [],
   fun hreq => runLoop_always_request_errors service handler hreq maxToolDepth []⟩

theorem run_tool_loop_bounded_witness :
    (OrchestrationLoop.run (fun _ => ServiceReply.requestLocalTool "calc" "2+2" "c1")
        (fun _ _ => "4")).2 ≤ maxToolDepth
    ∧ (OrchestrationLoop.run (fun _ => ServiceReply.requestLocalTool "calc" "2+2" "c1")
        (fun _ _ => "4")).1 = Except.error RunError.toolLoopExceeded :=
  ⟨(run_tool_loop_bounded (fun _ => ServiceReply.requestLocalTool "calc" "2+2" "c1")
      (fun _ _ => "4")).1,
   (run_tool_loop_bounded (fun _ => ServiceReply.requestLocalTool "calc" "2+2" "c1")
      (fun _ _ => "4")).2 (fun _ => ⟨"calc", "2+2", "c1", rfl⟩)⟩

end Spec2Proof
